import Mathlib

/-!
Shallow embedding of the plugins module of the pact_ffi crate
(src/rust/pact_ffi/src/plugins/mod.rs): the content-matcher resolution functions
(setup_contents, setup_core_matcher) and the FFI entry point
pactffi_interaction_contents.  External collaborators living in crates of this
repository that are not under src/ (the matcher catalogue and plugin RPC of
pact_plugin_driver, and the parsers and document model of pact_models) are
either modelled from the spec or passed as parameters of the model, as noted on
each definition.  Rust in-place mutation is embedded as explicit state passing.
-/

/-- JSON values, modelling serde_json::Value.  Objects and the maps inside them
are association lists of key/value pairs. -/
inductive JValue where
  | null : JValue
  | bool : Bool → JValue
  | num : Int → JValue
  | str : String → JValue
  | arr : List JValue → JValue
  | obj : List (String × JValue) → JValue

mutual

/-- Compact rendering of a JSON value, modelling the Display implementation of
serde_json::Value as used by the format! call in the InvalidDefinition error
message of setup_contents. -/
def JValue.render : JValue → String
  | .null => "null"
  | .bool b => cond b "true" "false"
  | .num n => toString n
  | .str s => "\"" ++ s ++ "\""
  | .arr xs => "[" ++ JValue.renderItems xs ++ "]"
  | .obj kvs => "\x7b" ++ JValue.renderFields kvs ++ "\x7d"

/-- Comma-separated rendering of JSON array elements. -/
def JValue.renderItems : List JValue → String
  | [] => ""
  | [x] => JValue.render x
  | x :: xs => JValue.render x ++ "," ++ JValue.renderItems xs

/-- Comma-separated rendering of JSON object fields. -/
def JValue.renderFields : List (String × JValue) → String
  | [] => ""
  | [(k, v)] => "\"" ++ k ++ "\":" ++ JValue.render v
  | (k, v) :: kvs => "\"" ++ k ++ "\":" ++ JValue.render v ++ "," ++ JValue.renderFields kvs

end

/-- A parsed MIME-like content type.  Modelled from the spec: ContentType of the
pact_models crate (not under src/) is "a parsed MIME-like value
(type/subtype[;params])"; this module only observes it opaquely and through its
canonical string form, so it is embedded as that string. -/
structure ContentType where
  value : String
deriving Repr, DecidableEq

/-- String form of a content type, modelling ContentType::to_string as used when
adding a content-type header. -/
def ContentType.to_string (ct : ContentType) : String := ct.value

/-- The body of a request or response part, modelling
pact_models::bodies::OptionalBody.  The byte contents of the Present case are
embedded as the String they were built from; the third field models the
optional ContentTypeHint. -/
inductive OptionalBody where
  | missing : OptionalBody
  | empty : OptionalBody
  | null : OptionalBody
  | present : String → Option ContentType → Option String → OptionalBody
deriving Repr, DecidableEq

/-- Entries of one matching-rule or generator category, kept abstract as
(path, rule) pairs: their internal structure is never inspected by this
module. -/
abbrev RuleEntries := List (String × String)

/-- Modelled from the spec: the additive merge into a named category performed
by MatchingRules::add_rules and Generators::add_generators of the pact_models
crate (not under src/) — "matching rules and generators from the candidate are
merged (additively, keyed by body) into the part". -/
def merge_entries : List (String × RuleEntries) → String → RuleEntries → List (String × RuleEntries)
  | [], category, entries => [(category, entries)]
  | (c, es) :: rest, category, entries =>
    if c = category then (c, es ++ entries) :: rest
    else (c, es) :: merge_entries rest category entries

/-- Association-list insert with replacement, modelling HashMap::insert for the
interaction-level plugin configuration map keyed by plugin name. -/
def insert_assoc : List (String × List (String × JValue)) → String → List (String × JValue) →
    List (String × List (String × JValue))
  | [], k, v => [(k, v)]
  | (k2, v2) :: rest, k, v =>
    if k2 = k then (k, v) :: rest else (k2, v2) :: insert_assoc rest k v

/-- One request or response part: the fields of the pact_models HttpRequest and
HttpResponse reached through the HttpPart trait that this module touches (body,
headers, matching rules, generators). -/
structure PartData where
  body : OptionalBody
  headers : List (String × List String)
  matching_rules : List (String × RuleEntries)
  generators : List (String × RuleEntries)

/-- Modelled from the spec: HttpPart::has_header of the pact_models crate (not
under src/) — whether the part already has a header of the given name (header
names compare case-insensitively). -/
def has_header (p : PartData) (name : String) : Bool :=
  p.headers.any (fun h => h.1.toLower = name.toLower)

/-- Human-readable markup attached to an interaction, modelling
pact_models::v4::interaction::InteractionMarkup. -/
structure InteractionMarkup where
  markup : String
  markup_type : String
deriving Repr, DecidableEq

/-- The fields of pact_models::v4::synch_http::SynchronousHttp that this module
touches: the two parts, the interaction-level plugin configuration map, and the
interaction markup. -/
structure SynchronousHttp where
  request : PartData
  response : PartData
  plugin_config : List (String × List (String × JValue))
  interaction_markup : InteractionMarkup

/-- Which part of the interaction to configure, modelling
crate::mock_server::handles::InteractionPart. -/
inductive InteractionPart where
  | request : InteractionPart
  | response : InteractionPart
deriving Repr, DecidableEq

/-- Project the targeted part out of an interaction, mirroring the match over
InteractionPart at the top of setup_core_matcher and inside setup_contents. -/
def SynchronousHttp.part_of (i : SynchronousHttp) : InteractionPart → PartData
  | .request => i.request
  | .response => i.response

/-- Plugin configuration surfaced by a configure call, modelling
pact_plugin_driver::content::PluginConfiguration (the driver crate is not under
src/): an interaction-level map and a pact-level map. -/
structure PluginConfiguration where
  interaction_configuration : List (String × JValue)
  pact_configuration : List (String × JValue)

/-- Modelled from the spec: PluginConfiguration::is_empty of the driver crate —
"non-empty plugin configuration from the candidate is recorded"; the
configuration is empty when both maps are empty. -/
def PluginConfiguration.is_empty (c : PluginConfiguration) : Bool :=
  c.interaction_configuration.isEmpty && c.pact_configuration.isEmpty

/-- One candidate contents entry returned by a plugin configure call, modelling
pact_plugin_driver::content::InteractionContents. -/
structure InteractionContents where
  body : OptionalBody
  rules : Option RuleEntries
  generators : Option RuleEntries
  plugin_config : PluginConfiguration
  interaction_markup : String
  interaction_markup_type : String

/-- A content matcher returned by the catalogue of pact_plugin_driver: either
the core framework or a plugin-backed matcher.  The configure_interation RPC
(source spelling) is embedded as a function returning the candidate contents
list and the optional plugin configuration, or the plugin's error text. -/
structure ContentMatcher where
  is_core : Bool
  plugin_name : String
  plugin_version : String
  configure_interation : ContentType → List (String × JValue) →
    Except String (List InteractionContents × Option PluginConfiguration)

/-- The external collaborators of the plugins module, passed as parameters of
the model: the matcher catalogue lookup (pact_plugin_driver), the core body
decoder body_from_json with its key argument (pact_models::json_utils), and the
two parsers used at the FFI boundary (ContentType::parse and
serde_json::from_str).  All live in crates of this repository that are not
under src/. -/
structure Env where
  find_content_matcher : ContentType → Option ContentMatcher
  body_from_json : JValue → String → OptionalBody
  parse_content_type : String → Option ContentType
  parse_json : String → Option JValue

/-- setup_core_matcher from src/rust/pact_ffi/src/plugins/mod.rs: the core body
rule.  A string definition becomes the body verbatim with the given content
type; an object definition containing a "contents" key has its body decoded by
body_from_json; any other shape leaves the part unchanged. -/
def setup_core_matcher (env : Env) (interaction : SynchronousHttp)
    (part : InteractionPart) (content_type : ContentType) (definition : JValue) :
    SynchronousHttp :=
  let update := fun (p : PartData) =>
    match definition with
    | .str s => { p with body := .present s (some content_type) none }
    | .obj o =>
      if o.any (fun kv => kv.1 = "contents") then
        { p with body := env.body_from_json definition "contents" }
      else p
    | _ => p
  match part with
  | .request => { interaction with request := update interaction.request }
  | .response => { interaction with response := update interaction.response }

/-- Lines 220-242 of setup_contents: apply the first candidate contents onto
the targeted part (body replaced; content-type header added only when absent;
rules and generators merged when present), record non-empty interaction-level
plugin configuration under the plugin name, and replace the interaction markup
wholesale. -/
def apply_candidate (interaction : SynchronousHttp) (part : InteractionPart)
    (content_type : ContentType) (matcher : ContentMatcher)
    (c : InteractionContents) : SynchronousHttp :=
  let updatePart := fun (p : PartData) =>
    let p1 := { p with body := c.body }
    let p2 :=
      if has_header p1 "content-type" then p1
      else { p1 with headers := p1.headers ++ [("content-type", [content_type.to_string])] }
    let p3 :=
      match c.rules with
      | some rules => { p2 with matching_rules := merge_entries p2.matching_rules "body" rules }
      | none => p2
    match c.generators with
    | some gens => { p3 with generators := merge_entries p3.generators "body" gens }
    | none => p3
  let i1 :=
    match part with
    | .request => { interaction with request := updatePart interaction.request }
    | .response => { interaction with response := updatePart interaction.response }
  let newConfig :=
    insert_assoc i1.plugin_config matcher.plugin_name c.plugin_config.interaction_configuration
  let i2 :=
    if c.plugin_config.is_empty then i1
    else { i1 with plugin_config := newConfig }
  { i2 with interaction_markup :=
      { markup := c.interaction_markup, markup_type := c.interaction_markup_type } }

/-- setup_contents from src/rust/pact_ffi/src/plugins/mod.rs.  The in-place
mutation of the interaction is embedded as explicit state passing: the result
pairs the (possibly updated) interaction with the Rust
Result of Option of (plugin name, version, configuration); every error path
returns the input interaction unchanged, exactly as the source mutates nothing
before erroring. -/
def setup_contents (env : Env) (interaction : SynchronousHttp)
    (part : InteractionPart) (content_type : ContentType) (definition : JValue) :
    SynchronousHttp × Except String (Option (String × String × PluginConfiguration)) :=
  match env.find_content_matcher content_type with
  | some matcher =>
    if matcher.is_core then
      (setup_core_matcher env interaction part content_type definition, .ok none)
    else
      match definition with
      | .obj attributes =>
        match matcher.configure_interation content_type attributes with
        | .ok (contents, plugin_config) =>
          let i :=
            match contents.head? with
            | some c => apply_candidate interaction part content_type matcher c
            | none => interaction
          (i, .ok (plugin_config.map
            (fun config => (matcher.plugin_name, matcher.plugin_version, config))))
        | .error err => (interaction, .error ("Failed to call out to plugin - " ++ err))
      | _ => (interaction, .error (definition.render ++ " is not a valid value for contents"))
  | none =>
    (setup_core_matcher env interaction part content_type definition, .ok none)

/-- The V4 interaction types of pact_models::v4::V4InteractionType (the crate is
not under src/); the string forms follow the spec's naming of the
interaction shapes and feed the todo! panic message. -/
inductive V4InteractionType where
  | Synchronous_HTTP : V4InteractionType
  | Asynchronous_Messages : V4InteractionType
  | Synchronous_Messages : V4InteractionType
deriving Repr, DecidableEq

/-- Display form of a V4 interaction type, used in the todo! message of
pactffi_interaction_contents. -/
def V4InteractionType.to_string : V4InteractionType → String
  | .Synchronous_HTTP => "Synchronous/HTTP"
  | .Asynchronous_Messages => "Asynchronous/Messages"
  | .Synchronous_Messages => "Synchronous/Messages"

/-- One entry of the contract-level plugin ledger, modelling
pact_models::plugins::PluginData as pushed by pactffi_interaction_contents. -/
structure PluginData where
  name : String
  version : String
  configuration : List (String × JValue)

/-- The state visible to pactffi_interaction_contents: the target interaction
with its V4 type and the mock-server started flag supplied by with_interaction,
and the owning pact's plugin_data ledger reached through with_pact. -/
structure FfiState where
  interaction : SynchronousHttp
  v4_type : V4InteractionType
  started : Bool
  plugin_data : List PluginData

/-- Outcome of the closure passed to with_interaction in
pactffi_interaction_contents (lines 147-158): the Ok and Err results of the
Rust closure, plus a distinct constructor modelling the todo! panic raised for
every interaction type other than Synchronous_HTTP. -/
inductive ClosureResult where
  | ok : SynchronousHttp → Option (String × String × PluginConfiguration) → ClosureResult
  | err : SynchronousHttp → String → ClosureResult
  | unimplemented : String → ClosureResult

/-- The closure passed to with_interaction in pactffi_interaction_contents:
when the mock server is already started the closure fails; otherwise it
dispatches on the V4 interaction type, running setup_contents for
Synchronous_HTTP and hitting todo! (the unimplemented outcome) for every other
type. -/
def interaction_contents_closure (env : Env) (started : Bool)
    (v4 : V4InteractionType) (interaction : SynchronousHttp)
    (part : InteractionPart) (content_type : ContentType) (contents : JValue) :
    ClosureResult :=
  if started then
    .err interaction "Mock server is already started"
  else
    match v4 with
    | .Synchronous_HTTP =>
      match setup_contents env interaction part content_type contents with
      | (i, .ok attribution) => .ok i attribution
      | (i, .error e) => .err i e
    | t => .unimplemented (t.to_string ++ " type of interaction is not supported yet")

/-- pactffi_interaction_contents from src/rust/pact_ffi/src/plugins/mod.rs over
an explicit state.  valid_handle models whether with_interaction finds the
interaction behind the handle (None from with_interaction yields status 3).
The returned number is the C status code; a closure Err maps to 6, a successful
closure pushes any surfaced plugin attribution onto the pact's plugin_data list
and returns 0, and the todo! panic of an unsupported interaction type is caught
by catch_panic and maps to 1. -/
def pactffi_interaction_contents (env : Env) (st : FfiState)
    (valid_handle : Bool) (part : InteractionPart) (content_type : String)
    (contents : String) : FfiState × Nat :=
  match env.parse_content_type content_type with
  | none => (st, 4)
  | some ct =>
    match env.parse_json contents with
    | none => (st, 5)
    | some value =>
      if valid_handle then
        match interaction_contents_closure env st.started st.v4_type st.interaction part ct value with
        | .ok i attribution =>
          match attribution with
          | some (plugin, version, config) =>
            let entry : PluginData :=
              { name := plugin, version := version, configuration := config.pact_configuration }
            ({ st with interaction := i, plugin_data := st.plugin_data ++ [entry] }, 0)
          | none => ({ st with interaction := i }, 0)
        | .err i _ => ({ st with interaction := i }, 6)
        | .unimplemented _ => (st, 1)
      else (st, 3)

/-- An empty request or response part used by concrete scenarios. -/
def emptyPart : PartData :=
  { body := .missing, headers := [], matching_rules := [], generators := [] }

/-- An interaction with empty parts, no plugin configuration and no markup,
used by concrete scenarios. -/
def emptyInteraction : SynchronousHttp :=
  { request := emptyPart, response := emptyPart, plugin_config := [],
    interaction_markup := { markup := "", markup_type := "" } }

/-- A matcher descriptor for the core framework. -/
def coreMatcher : ContentMatcher :=
  { is_core := true, plugin_name := "", plugin_version := "",
    configure_interation := fun _ _ => .error "core framework has no plugin RPC" }

/-- A concrete environment whose catalogue always answers with the core
matcher; the parsers accept any non-empty content type and only the JSON text
consisting of an empty object. -/
def coreEnv : Env :=
  { find_content_matcher := fun _ => some coreMatcher,
    body_from_json := fun _ _ => .empty,
    parse_content_type := fun s => if s.isEmpty then none else some ⟨s⟩,
    parse_json := fun s => if s = "\x7b\x7d" then some (.obj []) else none }

/-- A concrete environment whose catalogue has no entry for any content type,
otherwise identical to coreEnv. -/
def fallbackEnv : Env :=
  { coreEnv with find_content_matcher := fun _ => none }

/-- A concrete plugin configuration with an empty interaction-level map and a
non-empty pact-level map. -/
def pluginCfg : PluginConfiguration :=
  { interaction_configuration := [], pact_configuration := [("k", .str "v")] }

/-- A concrete plugin-backed matcher whose configure call succeeds with an
empty candidate list while surfacing pluginCfg. -/
def pluginMatcher : ContentMatcher :=
  { is_core := false, plugin_name := "custom", plugin_version := "1.0",
    configure_interation := fun _ _ => .ok ([], some pluginCfg) }

/-- A concrete environment whose catalogue always answers with pluginMatcher;
parsers as in coreEnv. -/
def pluginEnv : Env :=
  { coreEnv with find_content_matcher := fun _ => some pluginMatcher }

/-- A concrete state whose interaction is a plain HTTP interaction with the
mock server not yet started and an empty ledger. -/
def freshState : FfiState :=
  { interaction := emptyInteraction, v4_type := .Synchronous_HTTP,
    started := false, plugin_data := [] }

/-- A concrete state identical to freshState except that the mock server has
already been started. -/
def startedState : FfiState := { freshState with started := true }

/-- A concrete state identical to freshState except that the interaction is an
asynchronous message interaction rather than an HTTP one. -/
def asyncState : FfiState := { freshState with v4_type := .Asynchronous_Messages }

/-- C1: with a valid content-type string and valid JSON contents, calling
pactffi_interaction_contents on an interaction whose mock server is already
started returns status code 6 — the already-started failure flows through the
generic closure-error branch — not the documented status code 2, while the
state (both parts and the ledger) is left unmodified. -/
theorem already_started_returns_six :
    pactffi_interaction_contents coreEnv startedState true .request "application/json" "\x7b\x7d"
      = (startedState, 6)
    ∧ (6 : Nat) ≠ 2 :=
  ⟨rfl, by decide⟩

/-- C2: for every interaction type other than Synchronous_HTTP, with the mock
server not started and both boundary parses succeeding, the closure ends in
the explicit todo! unimplemented outcome — a constructor distinct from the
successful outcome and from the closure error outcome — and the FFI call
returns status 1 with the state unchanged, a code distinct from success (0)
and from every other error status (2 to 6). -/
theorem non_http_unimplemented (env : Env) (st : FfiState) (part : InteractionPart)
    (cts js : String) (ct : ContentType) (v : JValue)
    (hct : env.parse_content_type cts = some ct) (hjs : env.parse_json js = some v)
    (hv4 : st.v4_type ≠ .Synchronous_HTTP) (hstarted : st.started = false) :
    interaction_contents_closure env st.started st.v4_type st.interaction part ct v
        = .unimplemented (st.v4_type.to_string ++ " type of interaction is not supported yet")
    ∧ pactffi_interaction_contents env st true part cts js = (st, 1)
    ∧ (1 : Nat) ∉ ([0, 2, 3, 4, 5, 6] : List Nat) := by
  have hcl : interaction_contents_closure env st.started st.v4_type st.interaction part ct v
      = .unimplemented (st.v4_type.to_string ++ " type of interaction is not supported yet") := by
    unfold interaction_contents_closure
    rw [hstarted]
    simp only [Bool.false_eq_true, if_false]
  refine ⟨hcl, ?_, by decide⟩
  unfold pactffi_interaction_contents
  rw [hct, hjs]
  simp only [if_true]
  rw [hcl]

/-- C6: the core body rule decodes only the body — for every environment,
interaction, part, content type and definition, setup_core_matcher leaves the
targeted part's matching rules and generators unchanged; in particular, at the
failing input (an object definition with a "contents" key) the body is decoded
by body_from_json while the matching rules and generators stay empty, against
the claim (and the source's own TODO note) that the substructure is decoded
into matching-rule and generator form as well. -/
theorem core_contents_decodes_body_only :
    (∀ (env : Env) (i : SynchronousHttp) (part : InteractionPart)
        (ct : ContentType) (defn : JValue),
      ((setup_core_matcher env i part ct defn).part_of part).matching_rules
          = (i.part_of part).matching_rules
        ∧ ((setup_core_matcher env i part ct defn).part_of part).generators
          = (i.part_of part).generators)
    ∧ (setup_core_matcher coreEnv emptyInteraction .request ⟨"application/json"⟩
          (.obj [("contents", .obj [("a", .num 1)])])).request
        = { emptyPart with body := .empty } := by
  constructor
  · intro env i part ct defn
    cases part <;> cases defn <;>
      simp only [setup_core_matcher, SynchronousHttp.part_of] <;>
      first
        | exact ⟨rfl, rfl⟩
        | simp
        | (split <;> simp)
  · rfl

/-- C8: under a Core matcher, resolving a string definition leaves the targeted
part's body equal to the input string verbatim with the given content type
attached. -/
theorem core_string_body_verbatim (env : Env) (i : SynchronousHttp)
    (part : InteractionPart) (ct : ContentType) (s : String) (m : ContentMatcher)
    (hfind : env.find_content_matcher ct = some m) (hcore : m.is_core = true) :
    ((setup_contents env i part ct (.str s)).1.part_of part).body
      = OptionalBody.present s (some ct) none := by
  unfold setup_contents
  rw [hfind]
  cases part <;> simp [hcore, setup_core_matcher, SynchronousHttp.part_of]

/-- Witness for C2's theorem at a concrete asynchronous-message interaction. -/
theorem non_http_unimplemented_witness :
    interaction_contents_closure coreEnv asyncState.started asyncState.v4_type
        asyncState.interaction .request ⟨"application/json"⟩ (.obj [])
      = .unimplemented "Asynchronous/Messages type of interaction is not supported yet"
    ∧ pactffi_interaction_contents coreEnv asyncState true .request "application/json" "\x7b\x7d"
      = (asyncState, 1)
    ∧ (1 : Nat) ∉ ([0, 2, 3, 4, 5, 6] : List Nat) :=
  non_http_unimplemented coreEnv asyncState .request "application/json" "\x7b\x7d"
    ⟨"application/json"⟩ (.obj []) rfl rfl (by decide) rfl

/-- Witness for C8's theorem at a concrete core-matched interaction. -/
theorem core_string_body_verbatim_witness :
    ((setup_contents coreEnv emptyInteraction .request ⟨"text/plain"⟩ (.str "hello")).1.part_of
        .request).body
      = OptionalBody.present "hello" (some ⟨"text/plain"⟩) none :=
  core_string_body_verbatim coreEnv emptyInteraction .request ⟨"text/plain"⟩ "hello"
    coreMatcher rfl rfl

/-- A concrete plugin-backed matcher whose configure call always fails with the
plugin error text boom. -/
def failingMatcher : ContentMatcher :=
  { is_core := false, plugin_name := "custom", plugin_version := "1.0",
    configure_interation := fun _ _ => .error "boom" }

/-- A concrete environment whose catalogue always answers with failingMatcher;
parsers as in coreEnv. -/
def failEnv : Env :=
  { coreEnv with find_content_matcher := fun _ => some failingMatcher }

/-- C3 counterexample: two successful pactffi_interaction_contents calls, each
surfacing plugin attribution for the pair (custom, 1.0), leave the contract's
plugin-data list with two entries for that pair instead of exactly one — the
ledger push is a plain append with no deduplication by (name, version). -/
theorem ledger_not_deduplicated :
    (pactffi_interaction_contents pluginEnv freshState true .request
        "application/x-custom" "\x7b\x7d").2 = 0
    ∧ (pactffi_interaction_contents pluginEnv
        (pactffi_interaction_contents pluginEnv freshState true .request
          "application/x-custom" "\x7b\x7d").1
        true .request "application/x-custom" "\x7b\x7d").2 = 0
    ∧ ((pactffi_interaction_contents pluginEnv
        (pactffi_interaction_contents pluginEnv freshState true .request
          "application/x-custom" "\x7b\x7d").1
        true .request "application/x-custom" "\x7b\x7d").1.plugin_data.map
        (fun p => (p.name, p.version)))
      = [("custom", "1.0"), ("custom", "1.0")]
    ∧ ((pactffi_interaction_contents pluginEnv
        (pactffi_interaction_contents pluginEnv freshState true .request
          "application/x-custom" "\x7b\x7d").1
        true .request "application/x-custom" "\x7b\x7d").1.plugin_data.filter
        (fun p => p.name == "custom" && p.version == "1.0")).length ≠ 1 :=
  ⟨rfl, rfl, rfl, by decide⟩

/-- C3 amended: every successful pactffi_interaction_contents call whose
closure surfaces plugin attribution appends exactly one entry
(name, version, pact-level configuration) at the end of the contract's
plugin-data list — a plain append, so repeated (name, version) pairs
accumulate and the latest configuration for a pair is held by its last
entry. -/
theorem ledger_appends_entry (env : Env) (st : FfiState) (part : InteractionPart)
    (cts js : String) (ct : ContentType) (v : JValue) (i : SynchronousHttp)
    (plugin version : String) (config : PluginConfiguration)
    (hct : env.parse_content_type cts = some ct) (hjs : env.parse_json js = some v)
    (hcl : interaction_contents_closure env st.started st.v4_type st.interaction part ct v
        = .ok i (some (plugin, version, config))) :
    pactffi_interaction_contents env st true part cts js
      = ({ st with interaction := i, plugin_data := st.plugin_data ++ [⟨plugin, version, config.pact_configuration⟩] }, 0) := by
  unfold pactffi_interaction_contents
  rw [hct, hjs]
  simp only [if_true]
  rw [hcl]

/-- Witness for the amended C3 theorem at a concrete plugin-matched call. -/
theorem ledger_appends_entry_witness :
    pactffi_interaction_contents pluginEnv freshState true .request
        "application/x-custom" "\x7b\x7d"
      = ({ freshState with interaction := emptyInteraction, plugin_data := freshState.plugin_data ++ [⟨"custom", "1.0", pluginCfg.pact_configuration⟩] }, 0) :=
  ledger_appends_entry pluginEnv freshState .request "application/x-custom" "\x7b\x7d"
    ⟨"application/x-custom"⟩ (.obj []) emptyInteraction "custom" "1.0" pluginCfg rfl rfl rfl

/-- C5: when the plugin's configure call fails, setup_contents fails with an
error message carrying the plugin's original error text verbatim after the
fixed prefix, and the interaction — body, headers, matching rules, generators,
plugin configuration and markup — is returned completely unchanged. -/
theorem plugin_failure_no_mutation (env : Env) (i : SynchronousHttp)
    (part : InteractionPart) (ct : ContentType) (kvs : List (String × JValue))
    (m : ContentMatcher) (e : String)
    (hfind : env.find_content_matcher ct = some m) (hcore : m.is_core = false)
    (hconf : m.configure_interation ct kvs = .error e) :
    setup_contents env i part ct (.obj kvs)
      = (i, .error ("Failed to call out to plugin - " ++ e)) := by
  unfold setup_contents
  rw [hfind]
  simp only [hcore, Bool.false_eq_true, if_false]
  rw [hconf]

/-- Witness for C5's theorem at a concrete failing plugin call. -/
theorem plugin_failure_no_mutation_witness :
    setup_contents failEnv emptyInteraction .request ⟨"application/x-custom"⟩ (.obj [])
      = (emptyInteraction, .error ("Failed to call out to plugin - " ++ "boom")) :=
  plugin_failure_no_mutation failEnv emptyInteraction .request ⟨"application/x-custom"⟩
    [] failingMatcher "boom" rfl rfl rfl

/-- Replacing the body of a part does not change whether it has a header. -/
theorem has_header_body_irrel (p : PartData) (b : OptionalBody) (name : String) :
    has_header { p with body := b } name = has_header p name := rfl

/-- Field-level description of apply_candidate: how each field of the targeted
part and of the interaction changes when the first candidate is applied. -/
theorem apply_candidate_fields (i : SynchronousHttp) (part : InteractionPart)
    (ct : ContentType) (m : ContentMatcher) (c : InteractionContents) :
    ((apply_candidate i part ct m c).part_of part).body = c.body
    ∧ ((apply_candidate i part ct m c).part_of part).headers
        = (if has_header (i.part_of part) "content-type" then (i.part_of part).headers
           else (i.part_of part).headers ++ [("content-type", [ct.to_string])])
    ∧ ((apply_candidate i part ct m c).part_of part).matching_rules
        = (match c.rules with
           | some rules => merge_entries (i.part_of part).matching_rules "body" rules
           | none => (i.part_of part).matching_rules)
    ∧ ((apply_candidate i part ct m c).part_of part).generators
        = (match c.generators with
           | some gens => merge_entries (i.part_of part).generators "body" gens
           | none => (i.part_of part).generators)
    ∧ (apply_candidate i part ct m c).interaction_markup
        = { markup := c.interaction_markup, markup_type := c.interaction_markup_type }
    ∧ (apply_candidate i part ct m c).plugin_config
        = (if c.plugin_config.is_empty then i.plugin_config
           else insert_assoc i.plugin_config m.plugin_name
             c.plugin_config.interaction_configuration) := by
  obtain ⟨cbody, crules, cgens, cpc, cmk, cmkt⟩ := c
  cases part <;> cases crules <;> cases cgens <;> cases h : cpc.is_empty <;>
    simp [apply_candidate, SynchronousHttp.part_of, has_header_body_irrel, h, apply_ite]

/-- C4: when the plugin's configure call succeeds with a non-empty candidate
list, setup_contents applies the first candidate — its body replaces the part's
body; a content-type header is added only when the part has none yet; the
candidate's matching rules and generators are merged additively under the body
key; non-empty interaction-level plugin configuration is recorded; the
interaction markup is replaced wholesale — and the call returns
Some (name, version, configuration) exactly when the plugin surfaced plugin
configuration, else None. -/
theorem plugin_success_applies_first_candidate (env : Env) (i : SynchronousHttp)
    (part : InteractionPart) (ct : ContentType) (kvs : List (String × JValue))
    (m : ContentMatcher) (c : InteractionContents) (rest : List InteractionContents)
    (pcfg : Option PluginConfiguration)
    (hfind : env.find_content_matcher ct = some m) (hcore : m.is_core = false)
    (hconf : m.configure_interation ct kvs = .ok (c :: rest, pcfg)) :
    (setup_contents env i part ct (.obj kvs)).2
        = .ok (pcfg.map (fun config => (m.plugin_name, m.plugin_version, config)))
    ∧ (((setup_contents env i part ct (.obj kvs)).1.part_of part).body = c.body
    ∧ ((setup_contents env i part ct (.obj kvs)).1.part_of part).headers
        = (if has_header (i.part_of part) "content-type" then (i.part_of part).headers
           else (i.part_of part).headers ++ [("content-type", [ct.to_string])])
    ∧ ((setup_contents env i part ct (.obj kvs)).1.part_of part).matching_rules
        = (match c.rules with
           | some rules => merge_entries (i.part_of part).matching_rules "body" rules
           | none => (i.part_of part).matching_rules)
    ∧ ((setup_contents env i part ct (.obj kvs)).1.part_of part).generators
        = (match c.generators with
           | some gens => merge_entries (i.part_of part).generators "body" gens
           | none => (i.part_of part).generators)
    ∧ (setup_contents env i part ct (.obj kvs)).1.interaction_markup
        = { markup := c.interaction_markup, markup_type := c.interaction_markup_type }
    ∧ (setup_contents env i part ct (.obj kvs)).1.plugin_config
        = (if c.plugin_config.is_empty then i.plugin_config
           else insert_assoc i.plugin_config m.plugin_name
             c.plugin_config.interaction_configuration)) := by
  have hred : setup_contents env i part ct (.obj kvs)
      = (apply_candidate i part ct m c,
         .ok (pcfg.map (fun config => (m.plugin_name, m.plugin_version, config)))) := by
    unfold setup_contents
    rw [hfind]
    simp only [hcore, Bool.false_eq_true, if_false]
    rw [hconf]
    rfl
  rw [hred]
  exact ⟨rfl, apply_candidate_fields i part ct m c⟩

/-- A candidate contents entry exercising every mutation path of
apply_candidate: a present body, matching rules, generators, non-empty
interaction-level plugin configuration, and markup. -/
def richCandidate : InteractionContents :=
  { body := .present "plugin body" (some ⟨"application/x-custom"⟩) none,
    rules := some [("$", "type")],
    generators := some [("$.id", "uuid")],
    plugin_config := { interaction_configuration := [("ic", .num 1)],
                       pact_configuration := [("pc", .num 2)] },
    interaction_markup := "MARKUP",
    interaction_markup_type := "md" }

/-- A concrete plugin-backed matcher whose configure call succeeds with
richCandidate as the only candidate while surfacing pluginCfg. -/
def richMatcher : ContentMatcher :=
  { is_core := false, plugin_name := "custom", plugin_version := "1.0",
    configure_interation := fun _ _ => .ok ([richCandidate], some pluginCfg) }

/-- A concrete environment whose catalogue always answers with richMatcher;
parsers as in coreEnv. -/
def richEnv : Env :=
  { coreEnv with find_content_matcher := fun _ => some richMatcher }

/-- Witness for C4's theorem at a concrete plugin success on an empty part. -/
theorem plugin_success_applies_first_candidate_witness :
    (setup_contents richEnv emptyInteraction .request ⟨"application/x-custom"⟩ (.obj [])).2
        = .ok (some ("custom", "1.0", pluginCfg))
    ∧ (((setup_contents richEnv emptyInteraction .request ⟨"application/x-custom"⟩
          (.obj [])).1.part_of .request).body = richCandidate.body
    ∧ ((setup_contents richEnv emptyInteraction .request ⟨"application/x-custom"⟩
          (.obj [])).1.part_of .request).headers
        = [("content-type", ["application/x-custom"])]
    ∧ ((setup_contents richEnv emptyInteraction .request ⟨"application/x-custom"⟩
          (.obj [])).1.part_of .request).matching_rules
        = [("body", [("$", "type")])]
    ∧ ((setup_contents richEnv emptyInteraction .request ⟨"application/x-custom"⟩
          (.obj [])).1.part_of .request).generators
        = [("body", [("$.id", "uuid")])]
    ∧ (setup_contents richEnv emptyInteraction .request ⟨"application/x-custom"⟩
          (.obj [])).1.interaction_markup
        = { markup := "MARKUP", markup_type := "md" }
    ∧ (setup_contents richEnv emptyInteraction .request ⟨"application/x-custom"⟩
          (.obj [])).1.plugin_config
        = [("custom", [("ic", .num 1)])]) :=
  plugin_success_applies_first_candidate richEnv emptyInteraction .request
    ⟨"application/x-custom"⟩ [] richMatcher richCandidate [] (some pluginCfg) rfl rfl rfl

/-- The result of apply_candidate depends on the matcher only through its
plugin name. -/
theorem apply_candidate_name_only (i : SynchronousHttp) (part : InteractionPart)
    (ct : ContentType) (m m2 : ContentMatcher) (c : InteractionContents)
    (h : m.plugin_name = m2.plugin_name) :
    apply_candidate i part ct m c = apply_candidate i part ct m2 c := by
  unfold apply_candidate
  rw [h]

/-- C7: a plugin-backed matcher rejects every non-object definition with the
InvalidDefinition error before the configure RPC can matter — the result is the
same for every configure function, since the matcher is arbitrary — and an
object definition reaches configure exactly as its flat key/value pair list:
two plugin matchers with the same name and version whose configure calls agree
at (content type, pairs) produce identical results. -/
theorem plugin_requires_object (env env2 : Env) (i : SynchronousHttp)
    (part : InteractionPart) (ct : ContentType) (m m2 : ContentMatcher)
    (hfind : env.find_content_matcher ct = some m)
    (hfind2 : env2.find_content_matcher ct = some m2)
    (hcore : m.is_core = false) (hcore2 : m2.is_core = false)
    (hname : m.plugin_name = m2.plugin_name)
    (hversion : m.plugin_version = m2.plugin_version) :
    (∀ defn : JValue, (∀ kvs, defn ≠ .obj kvs) →
      setup_contents env i part ct defn
        = (i, .error (defn.render ++ " is not a valid value for contents")))
    ∧ (∀ kvs, m.configure_interation ct kvs = m2.configure_interation ct kvs →
      setup_contents env i part ct (.obj kvs) = setup_contents env2 i part ct (.obj kvs)) := by
  constructor
  · intro defn hne
    unfold setup_contents
    rw [hfind]
    simp only [hcore, Bool.false_eq_true, if_false]
  · intro kvs hagree
    unfold setup_contents
    rw [hfind, hfind2]
    simp only [hcore, hcore2, Bool.false_eq_true, if_false]
    rw [← hagree]
    cases hres : m.configure_interation ct kvs with
    | error e => rfl
    | ok pr =>
      obtain ⟨contents, plugin_config⟩ := pr
      cases contents with
      | nil => simp [hname, hversion]
      | cons c rest =>
        simp [hname, hversion, apply_candidate_name_only i part ct m m2 c hname]

/-- Witness for C7's theorem: a concrete non-object definition is rejected and
a concrete object definition gives identical results for two matchers that
agree at the forwarded pair list. -/
theorem plugin_requires_object_witness :
    setup_contents pluginEnv emptyInteraction .request ⟨"application/x-custom"⟩ (.str "x")
      = (emptyInteraction,
         .error ((JValue.str "x").render ++ " is not a valid value for contents"))
    ∧ setup_contents pluginEnv emptyInteraction .request ⟨"application/x-custom"⟩ (.obj [])
      = setup_contents pluginEnv emptyInteraction .request ⟨"application/x-custom"⟩ (.obj []) :=
  ⟨(plugin_requires_object pluginEnv pluginEnv emptyInteraction .request
      ⟨"application/x-custom"⟩ pluginMatcher pluginMatcher rfl rfl rfl rfl rfl rfl).1
      (.str "x") (fun _ h => JValue.noConfusion h),
   (plugin_requires_object pluginEnv pluginEnv emptyInteraction .request
      ⟨"application/x-custom"⟩ pluginMatcher pluginMatcher rfl rfl rfl rfl rfl rfl).2
      [] rfl⟩

/-- The result of setup_core_matcher depends on the environment only through
the body_from_json decoder. -/
theorem setup_core_matcher_congr (env env2 : Env) (i : SynchronousHttp)
    (part : InteractionPart) (ct : ContentType) (defn : JValue)
    (h : env.body_from_json = env2.body_from_json) :
    setup_core_matcher env i part ct defn = setup_core_matcher env2 i part ct defn := by
  unfold setup_core_matcher
  rw [h]

/-- C9: for a content type with no registered content matcher, setup_contents
returns Ok None and mutates the part exactly as the explicit Core-matcher
branch would for the same definition — the fallback path and the Core path are
behaviourally identical (given the same core body decoder). -/
theorem fallback_equals_core (env env2 : Env) (i : SynchronousHttp)
    (part : InteractionPart) (ct : ContentType) (defn : JValue) (m : ContentMatcher)
    (hnone : env.find_content_matcher ct = none)
    (hsome : env2.find_content_matcher ct = some m) (hcore : m.is_core = true)
    (hbody : env.body_from_json = env2.body_from_json) :
    setup_contents env i part ct defn = (setup_core_matcher env i part ct defn, .ok none)
    ∧ setup_contents env i part ct defn = setup_contents env2 i part ct defn := by
  have h1 : setup_contents env i part ct defn
      = (setup_core_matcher env i part ct defn, .ok none) := by
    unfold setup_contents
    rw [hnone]
  have h2 : setup_contents env2 i part ct defn
      = (setup_core_matcher env2 i part ct defn, .ok none) := by
    unfold setup_contents
    rw [hsome]
    simp only [hcore, if_true]
  rw [h1, h2, setup_core_matcher_congr env env2 i part ct defn hbody]
  exact ⟨rfl, rfl⟩

/-- Witness for C9's theorem: the no-matcher environment and the core-matcher
environment agree on a concrete string definition. -/
theorem fallback_equals_core_witness :
    setup_contents fallbackEnv emptyInteraction .request ⟨"application/json"⟩ (.str "x")
      = (setup_core_matcher fallbackEnv emptyInteraction .request ⟨"application/json"⟩
          (.str "x"), .ok none)
    ∧ setup_contents fallbackEnv emptyInteraction .request ⟨"application/json"⟩ (.str "x")
      = setup_contents coreEnv emptyInteraction .request ⟨"application/json"⟩ (.str "x") :=
  fallback_equals_core fallbackEnv coreEnv emptyInteraction .request ⟨"application/json"⟩
    (.str "x") coreMatcher rfl rfl rfl rfl

/-- C10: when the plugin's configure call succeeds with an empty candidate
list, the interaction is returned completely unmodified, yet setup_contents
still returns the surfaced plugin attribution (Some (name, version,
configuration) exactly when the plugin surfaced configuration). -/
theorem empty_candidates_keep_part (env : Env) (i : SynchronousHttp)
    (part : InteractionPart) (ct : ContentType) (kvs : List (String × JValue))
    (m : ContentMatcher) (pcfg : Option PluginConfiguration)
    (hfind : env.find_content_matcher ct = some m) (hcore : m.is_core = false)
    (hconf : m.configure_interation ct kvs = .ok ([], pcfg)) :
    setup_contents env i part ct (.obj kvs)
      = (i, .ok (pcfg.map (fun config => (m.plugin_name, m.plugin_version, config)))) := by
  unfold setup_contents
  rw [hfind]
  simp only [hcore, Bool.false_eq_true, if_false]
  rw [hconf]
  rfl

/-- Witness for C10's theorem at a concrete empty-candidate plugin success. -/
theorem empty_candidates_keep_part_witness :
    setup_contents pluginEnv emptyInteraction .response ⟨"application/x-custom"⟩ (.obj [])
      = (emptyInteraction, .ok (some ("custom", "1.0", pluginCfg))) :=
  empty_candidates_keep_part pluginEnv emptyInteraction .response
    ⟨"application/x-custom"⟩ [] pluginMatcher (some pluginCfg) rfl rfl rfl
